import Mathlib

/-!
Verification of the audio-visualizer repository.

The repository has three demo variants:
  * `src/unnamed/part_000` — file-upload 3D visualizer (`AudioBars`, `App` with
    `handleFileUpload` and `togglePlayback`), sampling every 2nd frequency bin;
  * `src/unnamed/part_001` — file-upload 3D visualizer with a selectable
    Z-axis formula (string-dispatched `switch` in `AudioBars`), sampling
    proportionally (`Math.floor(i * (dataArray.length / barCount))`);
  * `src/src/App.jsx` — microphone 2D visualizer (`startVisualizer`,
    `stopVisualizer`, `drawVisualizer`).

The per-frame arithmetic (bass boost, height floor, sampling index, hue) is
embedded over `ℚ`, since the source computes exact products, quotients and a
`max` of decimal literals; the trigonometric Z-offset formulas are embedded
over `ℝ`.  Session state (refs, flags, error message) is embedded as explicit
records, with the browser collaborators (media permission, playback start,
`AudioContext.close`) represented by their observable outcomes.
-/

namespace AudioVisualizer

/-- Number of bars rendered by both 3D variants
(`const barCount = 64`, part_000 line 17, part_001 line 16). -/
def barCount : ℕ := 64

/-- Bass boost, from `const bassBoost = i < 16 ? value * 4 : value * 1.5`
(part_000 line 24, part_001 line 23). -/
def bassBoost (i : ℕ) (value : ℚ) : ℚ :=
  if i < 16 then value * 4 else value * 1.5

/-- Bar height, from `const height = Math.max(0.3, bassBoost * 12)`
(part_000 line 25, part_001 line 24). -/
def height (i : ℕ) (value : ℚ) : ℚ :=
  max 0.3 (bassBoost i value * 12)

/-- Proportional sampling index of part_001 line 19:
`const freqIndex = Math.floor(i * (dataArray.length / barCount))`,
with `n` the snapshot length `dataArray.length`. -/
def freqIndex (i n : ℕ) : ℕ :=
  ⌊(i : ℚ) * ((n : ℚ) / (barCount : ℚ))⌋₊

/-- Fixed-stride sampling index of part_000 line 21:
`dataArray[Math.floor(i * 2)]`. -/
def freqIndexSimple (i : ℕ) : ℕ :=
  ⌊(i : ℚ) * 2⌋₊

/-- Normalized magnitude read by bar `i` in part_001 line 20:
`let value = dataArray[freqIndex] / 255`, the snapshot being `data` of
length `n`. -/
def sampleValue (data : ℕ → ℕ) (n i : ℕ) : ℚ :=
  (data (freqIndex i n) : ℚ) / 255

/-- Normalized magnitude read by bar `i` in part_000 line 21:
`let value = dataArray[Math.floor(i * 2)] / 255`. -/
def sampleValueSimple (data : ℕ → ℕ) (i : ℕ) : ℚ :=
  (data (freqIndexSimple i) : ℚ) / 255

/-- The `zFormula` value selected by the `"none"` dropdown option
(part_001 lines 33 and 150). -/
def formulaNone : String := "none"

/-- The `zFormula` value selected by the `"sine"` dropdown option
(part_001 lines 36 and 151); also the `useState` default (line 79). -/
def formulaSine : String := "sine"

/-- The `zFormula` value selected by the `"pulse"` dropdown option
(part_001 lines 39 and 153). -/
def formulaPulse : String := "pulse"

/-- The `zFormula` value selected by the `"wave"` dropdown option
(part_001 lines 42 and 152). -/
def formulaWave : String := "wave"

/-- The `zFormula` value selected by the `"spiral"` dropdown option
(part_001 lines 45 and 154). -/
def formulaSpiral : String := "spiral"

/-- Depth offset of a bar, from the `switch (zFormula)` of part_001
lines 30–50.  `i` is the bar index, `x` the bar's X position computed on
line 27, `t` the elapsed time `performance.now() * 0.001`, and `value` the
normalized magnitude of the bar.  The `default` branch of the switch
leaves `z = 0`. -/
noncomputable def zOffset (formula : String) (i : ℕ) (x t value : ℝ) : ℝ :=
  match formula with
  | "none" => 0
  | "sine" => Real.sin (x * 0.2 + t) * (value * 5)
  | "pulse" => Real.sin (t * 3) * (value * 8)
  | "wave" => Real.sin ((i : ℝ) * 0.2 + t * 2) * (value * 6 + 2)
  | "spiral" => Real.cos (x * 0.3 + t) * (value * 6) + Real.sin t * 2
  | _ => 0

/-- Bar hue of the 2D variant, from `const hue = i / bufferLength * 60 + 180`
(src/src/App.jsx line 59); `n` is `bufferLength`. -/
def hue (i n : ℕ) : ℚ :=
  (i : ℚ) / (n : ℚ) * 60 + 180

/-- Modelled from the spec and the Web Audio API contract (not part of the
repository's own code): an analyser's `frequencyBinCount` is half its
`fftSize`.  All three variants set `fftSize = 256` (part_000 line 86,
part_001 line 103, App.jsx line 17), so the frequency snapshot allocated
from `analyser.frequencyBinCount` has length 128. -/
def frequencyBinCount (fftSize : ℕ) : ℕ :=
  fftSize / 2

/-- The snapshot of the spec's end-to-end scenario: `[255, 128, 0, ...]`,
all entries beyond the second being zero. -/
def demoSnapshot (k : ℕ) : ℕ :=
  if k = 0 then 255 else if k = 1 then 128 else 0

/-- Lifecycle of the browser `AudioContext` held in `audioContextRef`. -/
inductive CtxState where
  | opened
  | closed
  deriving DecidableEq

/-- State of the microphone visualizer component (src/src/App.jsx):
`audioContext` is `audioContextRef.current` together with the context's
open/closed status, `frameHandle` records whether `animationFrameRef.current`
is non-null, `framePending` whether a frame callback is still scheduled,
`isVisualizing` and `error` are the two `useState` values, and `closedCount`
counts the open→closed transitions actually performed on an audio context
(the resource-release ledger). -/
structure MicState where
  audioContext : Option CtxState
  frameHandle : Bool
  framePending : Bool
  isVisualizing : Bool
  error : Option String
  closedCount : ℕ

/-- First statement of `stopVisualizer` (App.jsx lines 30–32):
`if (animationFrameRef.current) cancelAnimationFrame(...)`.  Cancelling a
handle whose callback already ran or was already cancelled is a no-op. -/
def cancelFrame (s : MicState) : MicState :=
  if s.frameHandle then { s with framePending := false } else s

/-- Second statement of `stopVisualizer` (App.jsx lines 33–35):
`if (audioContextRef.current) audioContextRef.current.close()`.  The ref is
never nulled, so a second call reaches `close()` again; per Web Audio
semantics, `close()` on an already-closed context returns a rejected
promise (which this code ignores) and changes no app state, and only an
open context transitions to closed — that transition is the actual
resource release counted by `closedCount`. -/
def closeContext (s : MicState) : MicState :=
  match s.audioContext with
  | some CtxState.opened =>
      { s with audioContext := some CtxState.closed,
               closedCount := s.closedCount + 1 }
  | _ => s

/-- `stopVisualizer` (App.jsx lines 29–37): cancel the pending frame,
close the audio context, then `setIsVisualizing(false)`. -/
def stopVisualizer (s : MicState) : MicState :=
  { closeContext (cancelFrame s) with isVisualizing := false }

/-- Error message set by `startVisualizer` when `getUserMedia` rejects
(App.jsx line 24). -/
def micErrorMessage : String :=
  "Microphone access denied or unavailable. Please allow microphone permission."

/-- `startVisualizer` (App.jsx lines 11–27), with the asynchronous
`getUserMedia` outcome passed as `micGranted`.  On success a fresh audio
context and analyser are wired, `isVisualizing` becomes true, the error is
cleared and `drawVisualizer` schedules the frame loop; on rejection the
`catch` only sets the error message. -/
def startVisualizer (micGranted : Bool) (s : MicState) : MicState :=
  if micGranted then
    { s with audioContext := some CtxState.opened,
             frameHandle := true, framePending := true,
             isVisualizing := true, error := none }
  else
    { s with error := some micErrorMessage }

/-- A file offered to the file input: its MIME `type` and the object URL
the browser would mint for it. -/
structure MediaFile where
  type : String
  url : String

/-- State of a file-upload visualizer component (part_000 lines 57–64,
part_001 lines 76–84): the `audioFile` object URL, the `isPlaying` and
`error` `useState` values, and whether the one-time audio pipeline has
been initialized (`audioContextRef.current` non-null). -/
structure PlayerState where
  audioFile : Option String
  isPlaying : Bool
  error : Option String
  audioCtxInit : Bool

/-- Error message of `handleFileUpload` (part_000 line 69, part_001
line 89). -/
def uploadErrorMessage : String :=
  "Please upload a valid audio file (mp3, wav, etc.)"

/-- Error message of `togglePlayback` when `audio.play()` rejects
(part_000 line 100, part_001 line 117). -/
def playbackErrorMessage : String :=
  "Playback failed. Try clicking Play again."

/-- MIME-type family accepted by `handleFileUpload`. -/
def audioTypeTag : String := "audio/"

/-- The guard of `handleFileUpload` (part_000 line 68, part_001 line 88):
`!file || !file.type.startsWith('audio/')`, stated positively. -/
def validAudioFile : Option MediaFile → Bool
  | none => false
  | some f => f.type.startsWith audioTypeTag

/-- `handleFileUpload` (part_000 lines 66–76, part_001 lines 86–95): an
absent or non-audio file only sets the error message and returns; a valid
one stores its object URL, clears the error and resets `isPlaying`. -/
def handleFileUpload (file : Option MediaFile) (s : PlayerState) : PlayerState :=
  if validAudioFile file = false then
    { s with error := some uploadErrorMessage }
  else
    match file with
    | some f => { s with audioFile := some f.url, error := none, isPlaying := false }
    | none => s

/-- `togglePlayback` (part_000 lines 78–107, part_001 lines 97–123), with
the presence of the `<audio>` element passed as `audioElem` and the
outcome of the awaited `audio.play()` as `playSucceeds`.  Without an
element it returns at once; otherwise the pipeline is initialized on first
use, then either the audio is paused (`setIsPlaying(false)`), or play
succeeds (`setIsPlaying(true)`), or the `catch` sets the error message and
returns before the flag is toggled. -/
def togglePlayback (audioElem : Bool) (playSucceeds : Bool) (s : PlayerState) :
    PlayerState :=
  if audioElem = false then s
  else
    let s1 := if s.audioCtxInit then s else { s with audioCtxInit := true }
    if s1.isPlaying then
      { s1 with isPlaying := false }
    else if playSucceeds then
      { s1 with isPlaying := true }
    else
      { s1 with error := some playbackErrorMessage }

/-- The proportional sampling index is the floor of `i · n / 64`. -/
theorem freqIndex_eq (i n : ℕ) : freqIndex i n = i * n / 64 := by
  have hb : (barCount : ℚ) = ((64 : ℕ) : ℚ) := by norm_num [barCount]
  unfold freqIndex
  rw [hb, show (i : ℚ) * ((n : ℚ) / ((64 : ℕ) : ℚ))
      = ((i * n : ℕ) : ℚ) / ((64 : ℕ) : ℚ) by push_cast; ring]
  rw [Nat.floor_div_nat, Nat.floor_natCast]

/-- The fixed-stride sampling index is exactly `i * 2`. -/
theorem freqIndexSimple_eq (i : ℕ) : freqIndexSimple i = i * 2 := by
  unfold freqIndexSimple
  rw [show (i : ℚ) * 2 = ((i * 2 : ℕ) : ℚ) by push_cast; ring]
  rw [Nat.floor_natCast]

/-- C1.  Height floor: for every bar index `i < 64` and every normalized
magnitude `v ∈ [0, 1]`, the bar height `max 0.3 (bassBoost · 12)` is at
least `0.3`; in particular no bar ever fully disappears, even at `v = 0`. -/
theorem height_floor (i : ℕ) (v : ℚ) (hi : i < barCount) (h0 : 0 ≤ v)
    (h1 : v ≤ 1) : 0.3 ≤ height i v :=
  le_max_left _ _

/-- Witness for C1 at `i = 0`, `v = 0`. -/
theorem height_floor_witness :
    0 < barCount ∧ (0 : ℚ) ≤ 0 ∧ (0 : ℚ) ≤ 1 ∧ (0.3 : ℚ) ≤ height 0 0 :=
  ⟨by decide, le_refl 0, by norm_num,
    height_floor 0 0 (by decide) (le_refl 0) (by norm_num)⟩

/-- C2.  Z-offset formula table: for every bar index `i`, position `x`,
elapsed time `t` and per-bar value `v`, the string-dispatched depth offset
equals exactly: none → 0, sine → sin(x·0.2 + t)·(v·5),
pulse → sin(t·3)·(v·8), wave → sin(i·0.2 + t·2)·(v·6 + 2),
spiral → cos(x·0.3 + t)·(v·6) + sin(t)·2; in particular the offset for
formula "none" is identically 0. -/
theorem z_offset_formula_table (i : ℕ) (x t v : ℝ) :
    zOffset formulaNone i x t v = 0 ∧
    zOffset formulaSine i x t v = Real.sin (x * 0.2 + t) * (v * 5) ∧
    zOffset formulaPulse i x t v = Real.sin (t * 3) * (v * 8) ∧
    zOffset formulaWave i x t v = Real.sin ((i : ℝ) * 0.2 + t * 2) * (v * 6 + 2) ∧
    zOffset formulaSpiral i x t v
      = Real.cos (x * 0.3 + t) * (v * 6) + Real.sin t * 2 := by
  refine ⟨?_, ?_, ?_, ?_, ?_⟩ <;>
    simp [zOffset, formulaNone, formulaSine, formulaPulse, formulaWave,
      formulaSpiral]

/-- C3.  Pulse lockstep: the Z-offset of the "pulse" formula does not
depend on the bar index or the bar position — any two bars with the same
value `v` get the same depth at the same instant `t`. -/
theorem pulse_lockstep (i1 i2 : ℕ) (x1 x2 t v : ℝ) :
    zOffset formulaPulse i1 x1 t v = zOffset formulaPulse i2 x2 t v := by
  simp [zOffset, formulaPulse]

/-- C4.  Bass-boost monotonicity: for every magnitude `v > 0` and bar
indices `i1 < 16 ≤ i2`, the boosted bar is at least as tall:
`height i2 v ≤ height i1 v`. -/
theorem bass_boost_monotone (i1 i2 : ℕ) (v : ℚ) (h1 : i1 < 16)
    (h2 : 16 ≤ i2) (hv : 0 < v) : height i2 v ≤ height i1 v := by
  unfold height bassBoost
  rw [if_pos h1, if_neg (by omega)]
  apply max_le_max le_rfl
  nlinarith

/-- Witness for C4 at `i1 = 0`, `i2 = 20`, `v = 1`. -/
theorem bass_boost_monotone_witness :
    0 < 16 ∧ 16 ≤ 20 ∧ (0 : ℚ) < 1 ∧ height 20 1 ≤ height 0 1 :=
  ⟨by decide, by decide, by norm_num,
    bass_boost_monotone 0 20 1 (by decide) (by decide) (by norm_num)⟩

/-- C5.  Sampling index: for every bar `i < 64`, the proportional variant
reads the snapshot of length `n` at index `⌊i · n / 64⌋` (natural floor
division), while the simpler variant reads at the un-normalized index
`⌊i · 2⌋ = i · 2`. -/
theorem sampling_index (i n : ℕ) (hi : i < barCount) :
    freqIndex i n = i * n / 64 ∧ freqIndexSimple i = i * 2 :=
  ⟨freqIndex_eq i n, freqIndexSimple_eq i⟩

/-- Witness for C5 at `i = 20`, `n = 128`. -/
theorem sampling_index_witness :
    20 < barCount ∧ freqIndex 20 128 = 20 * 128 / 64 ∧
      freqIndexSimple 20 = 20 * 2 :=
  ⟨by decide, (sampling_index 20 128 (by decide)).1,
    (sampling_index 20 128 (by decide)).2⟩

/-- C6.  Hue of the 2D variant: `hue i n = i / n · 60 + 180` is strictly
increasing in `i` across `[0, n)` and every value lies in `[180, 240)`. -/
theorem hue_increasing_bounded (n : ℕ) (hn : 0 < n) :
    (∀ i1 i2 : ℕ, i1 < i2 → i2 < n → hue i1 n < hue i2 n) ∧
    (∀ i : ℕ, i < n → 180 ≤ hue i n ∧ hue i n < 240) := by
  have hn' : (0 : ℚ) < n := by exact_mod_cast hn
  constructor
  · intro i1 i2 h12 _
    unfold hue
    have h : (i1 : ℚ) / n < (i2 : ℚ) / n := by
      apply div_lt_div_of_pos_right _ hn'
      exact_mod_cast h12
    linarith
  · intro i hi
    unfold hue
    constructor
    · have h : (0 : ℚ) ≤ (i : ℚ) / n := by positivity
      linarith
    · have h : (i : ℚ) / n < 1 := by
        rw [div_lt_one hn']
        exact_mod_cast hi
      linarith

/-- Witness for C6 at `n = 2`, indices 0 and 1. -/
theorem hue_increasing_bounded_witness :
    0 < 2 ∧ hue 0 2 < hue 1 2 ∧ 180 ≤ hue 1 2 ∧ hue 1 2 < 240 :=
  ⟨by decide,
    (hue_increasing_bounded 2 (by decide)).1 0 1 (by decide) (by decide),
    ((hue_increasing_bounded 2 (by decide)).2 1 (by decide)).1,
    ((hue_increasing_bounded 2 (by decide)).2 1 (by decide)).2⟩

/-- C7.  End-to-end scenario: with snapshot `[255, 128, 0, ...]` of
length 128 and 64 bars, bar 0 (boost region) reads `v = 1`, gets boosted
value 4 and height `max 0.3 48 = 48`; a non-boost bar such as bar 20 with
per-bar value `v = 1/2` gets boosted value `3/4` and height
`max 0.3 9 = 9`. -/
theorem end_to_end_scenario :
    sampleValue demoSnapshot 128 0 = 1 ∧
    bassBoost 0 (sampleValue demoSnapshot 128 0) = 4 ∧
    height 0 (sampleValue demoSnapshot 128 0) = 48 ∧
    bassBoost 20 (1 / 2) = 3 / 4 ∧
    height 20 (1 / 2) = 9 := by
  have h0 : sampleValue demoSnapshot 128 0 = 1 := by
    unfold sampleValue
    rw [freqIndex_eq]
    norm_num [demoSnapshot]
  refine ⟨h0, ?_, ?_, ?_, ?_⟩
  · rw [h0]; norm_num [bassBoost]
  · rw [h0]; norm_num [height, bassBoost]
  · norm_num [bassBoost]
  · norm_num [height, bassBoost]

/-- C8.  Stop idempotence: from any state, a second `stopVisualizer`
leaves the state exactly where the first put it; after a stop the session
is idle (`isVisualizing = false`); and the audio context is actually
released (open → closed) exactly once when one is open, never more —
calling stop when already stopped performs no further release. -/
theorem stop_idempotent (s : MicState) :
    stopVisualizer (stopVisualizer s) = stopVisualizer s ∧
    (stopVisualizer s).isVisualizing = false ∧
    (stopVisualizer s).closedCount
      = s.closedCount
        + (if s.audioContext = some CtxState.opened then 1 else 0) := by
  obtain ⟨ctx, fh, fp, vis, err, n⟩ := s
  rcases ctx with _ | c
  · cases fh <;>
      simp [stopVisualizer, cancelFrame, closeContext]
  · cases c <;> cases fh <;>
      simp [stopVisualizer, cancelFrame, closeContext]

/-- C9.  Error handling: an invalid or missing file selection is rejected
with the user-facing upload message and no change to the selected audio
file or the playing flag; a denied microphone permission surfaces the
microphone message and leaves the session idle; a failed playback start
surfaces the playback message and leaves the playing flag false.  Each
handler runs once with no retry path. -/
theorem error_handling_idle (file : Option MediaFile)
    (s1 : PlayerState) (s2 : MicState) (s3 : PlayerState)
    (hfile : validAudioFile file = false)
    (hidle : s2.isVisualizing = false)
    (hplay : s3.isPlaying = false) :
    (handleFileUpload file s1).audioFile = s1.audioFile ∧
    (handleFileUpload file s1).isPlaying = s1.isPlaying ∧
    (handleFileUpload file s1).error = some uploadErrorMessage ∧
    (startVisualizer false s2).isVisualizing = false ∧
    (startVisualizer false s2).error = some micErrorMessage ∧
    (togglePlayback true false s3).isPlaying = false ∧
    (togglePlayback true false s3).error = some playbackErrorMessage := by
  have hup : handleFileUpload file s1
      = { s1 with error := some uploadErrorMessage } := by
    unfold handleFileUpload
    rw [hfile]
    simp
  have htg : ∀ s : PlayerState, s.isPlaying = false →
      (togglePlayback true false s).isPlaying = false ∧
      (togglePlayback true false s).error = some playbackErrorMessage := by
    intro s hs
    obtain ⟨af, ip, er, ini⟩ := s
    cases ini <;> simp_all [togglePlayback]
  refine ⟨?_, ?_, ?_, ?_, ?_, (htg s3 hplay).1, (htg s3 hplay).2⟩
  · rw [hup]
  · rw [hup]
  · rw [hup]
  · simp [startVisualizer, hidle]
  · simp [startVisualizer]

/-- Witness for C9: a missing file, an idle microphone session and a
non-playing player session. -/
theorem error_handling_idle_witness :
    validAudioFile none = false ∧
    (MicState.mk none false false false none 0).isVisualizing = false ∧
    (PlayerState.mk none false none false).isPlaying = false ∧
    ((handleFileUpload none (PlayerState.mk none false none false)).audioFile
        = (PlayerState.mk none false none false).audioFile ∧
      (handleFileUpload none (PlayerState.mk none false none false)).isPlaying
        = (PlayerState.mk none false none false).isPlaying ∧
      (handleFileUpload none (PlayerState.mk none false none false)).error
        = some uploadErrorMessage ∧
      (startVisualizer false (MicState.mk none false false false none 0)).isVisualizing
        = false ∧
      (startVisualizer false (MicState.mk none false false false none 0)).error
        = some micErrorMessage ∧
      (togglePlayback true false (PlayerState.mk none false none false)).isPlaying
        = false ∧
      (togglePlayback true false (PlayerState.mk none false none false)).error
        = some playbackErrorMessage) :=
  ⟨rfl, rfl, rfl,
    error_handling_idle none (PlayerState.mk none false none false)
      (MicState.mk none false false false none 0)
      (PlayerState.mk none false none false) rfl rfl rfl⟩

/-- C10.  Implicit sampling equivalence: both file-upload variants set
`fftSize = 256`, so the snapshot length is `frequencyBinCount 256 = 128`,
and at that length the fixed-stride index `⌊i · 2⌋` of part_000 coincides
with the proportional index `⌊i · (128 / 64)⌋` of part_001 for every bar
`i < 64`. -/
theorem sampling_variants_agree (i : ℕ) (hi : i < barCount) :
    frequencyBinCount 256 = 128 ∧
    freqIndexSimple i = freqIndex i (frequencyBinCount 256) := by
  refine ⟨rfl, ?_⟩
  rw [freqIndexSimple_eq, freqIndex_eq]
  norm_num [frequencyBinCount]
  omega

/-- Witness for C10 at `i = 20`. -/
theorem sampling_variants_agree_witness :
    20 < barCount ∧ frequencyBinCount 256 = 128 ∧
      freqIndexSimple 20 = freqIndex 20 (frequencyBinCount 256) :=
  ⟨by decide, (sampling_variants_agree 20 (by decide)).1,
    (sampling_variants_agree 20 (by decide)).2⟩

end AudioVisualizer
